import Mathlib

/-!
Shallow embedding of the MUS267 drum-machine core.

Embedded source files:
  * `src/pod/final/final.cpp` — the Daisy Pod drum machine: per-sample audio
    callback with tempo clock, metronome click, hi-hat, kit switching,
    manual/preset mode, and a 32-step preset sequencer.
  * `src/hw2/hw2.cpp` — the companion modulated-delay effect voice
    (`ModulatedDelay`), used for the parameter-clamping safety claims.

Floating-point state (`float` in the source) is embedded as `ℚ`; the claims
under verification concern control flow, counter wrap discipline, index
arithmetic and clamping, all of which are exact in this regime.  C++ `int`
arithmetic is embedded as `Int`, with `%` on `int` embedded as `Int.tmod`
(truncated remainder, the C++ semantics).

The DSP unit generators (oscillator, white noise, state-variable filter,
ADSR envelope) come from the external `daisysp` library, which is not part
of this repository; the spec treats them as black boxes with a stated
interface contract (one sample advance per `Process` call, `Retrigger`
restarts the envelope).  They are modelled from the spec below, each marked
`Modelled from the spec:` in its doc comment.
-/

namespace DrumMachine

/-- Modelled from the spec: the external `daisysp::Adsr` envelope unit
generator (out of scope for this repository, specified only at its
interface boundary).  `retrigger` restarts the envelope from its attack
phase regardless of the current phase (always audible: the output right
after a retrigger is the full attack amplitude `1`); `advance` moves one
sample forward; the envelope decays to silence on its own once the phase
passes the configured decay length.  `decayTime` is in seconds, as set by
`SetDecayTime`; `sampleRate` is stored at `Init` as in `daisysp`. -/
structure Adsr where
  active : Bool
  phase : Nat
  attackTime : ℚ
  decayTime : ℚ
  sustainLevel : ℚ
  sampleRate : ℚ
deriving DecidableEq, Repr

/-- Modelled from the spec: restart from the attack phase. -/
def Adsr.retrigger (e : Adsr) : Adsr :=
  { e with active := true, phase := 0 }

/-- Modelled from the spec: the envelope's instantaneous output, a strictly
positive value while the envelope is active (percussive shape, amplitude
`(1/2) ^ phase`), and exactly `0` once it has decayed to silence. -/
def Adsr.out (e : Adsr) : ℚ :=
  if e.active then (1 / 2) ^ e.phase else 0

/-- Modelled from the spec: advance the envelope one sample; it goes
silent once the phase passes the configured decay length in samples. -/
def Adsr.advance (e : Adsr) : Adsr :=
  { e with
    phase := e.phase + 1,
    active := e.active && decide ((e.phase + 1 : ℚ) < e.decayTime * e.sampleRate) }

/-- Modelled from the spec: the external `daisysp::Oscillator` unit
generator, abstracted as a unit-amplitude source that advances its phase
by one sample per `Process` call (the actual waveform is out of scope;
only the engine logic around it is verified). -/
structure Oscillator where
  freq : ℚ
  phase : Nat
deriving DecidableEq, Repr

/-- Modelled from the spec: one sample of the oscillator — the output
sample together with the advanced oscillator state. -/
def Oscillator.process (o : Oscillator) : ℚ × Oscillator :=
  (1, { o with phase := o.phase + 1 })

/-- Modelled from the spec: the external `daisysp::WhiteNoise` source,
abstracted as a unit-amplitude source advancing its internal state by one
sample per `Process` call. -/
structure WhiteNoise where
  phase : Nat
deriving DecidableEq, Repr

/-- Modelled from the spec: one sample of the noise source. -/
def WhiteNoise.process (w : WhiteNoise) : ℚ × WhiteNoise :=
  (1, { w with phase := w.phase + 1 })

/-- Modelled from the spec: the external `daisysp::Svf` state-variable
filter, abstracted as a pass-through that records the last processed
input as its internal state (so "the filter advances every sample" is
observable), with its frequency/resonance parameters kept faithfully. -/
structure Svf where
  freq : ℚ
  res : ℚ
  state : ℚ
deriving DecidableEq, Repr

/-- Modelled from the spec: process one input sample, updating state. -/
def Svf.process (f : Svf) (x : ℚ) : Svf :=
  { f with state := x }

/-- Modelled from the spec: the high-pass output tap. -/
def Svf.high (f : Svf) : ℚ := f.state

/-- Modelled from the spec: the band-pass output tap. -/
def Svf.band (f : Svf) : ℚ := f.state

/-- `NUM_DRUM_SETS` from `final.cpp`. -/
def NUM_DRUM_SETS : Int := 6

/-- `PRESET_STEPS` from `final.cpp` (32 steps). -/
def PRESET_STEPS : Nat := 32

/-- One drum set's parameter row from the `drumParams` table:
`[set][0] = kick frequency`, `[set][1] = kick decay`,
`[set][2] = snare filter center frequency`, `[set][3] = snare decay`. -/
structure KitParams where
  kickFreq : ℚ
  kickDecay : ℚ
  snareFreq : ℚ
  snareDecay : ℚ
deriving DecidableEq, Repr

/-- The `drumParams` table from `final.cpp` (decimal literals read as
exact rationals). -/
def drumParams : Nat → KitParams
  | 0 => ⟨60, 1/5, 1800, 3/20⟩
  | 1 => ⟨80, 3/25, 1200, 1/10⟩
  | 2 => ⟨45, 4/5, 2200, 1/10⟩
  | 3 => ⟨55, 7/25, 2500, 9/50⟩
  | 4 => ⟨70, 3/20, 1000, 9/100⟩
  | _ => ⟨65, 1/10, 3500, 3/25⟩

/-- `drumParams` indexed by the C++ `int` drum-set index.  In the C++
source a negative index would be an out-of-bounds array access (undefined
behaviour); the embedding totalizes the lookup via `Int.toNat` purely to
stay executable — all theorems about kit parameters are stated at valid
indices. -/
def drumParamsI (i : Int) : KitParams := drumParams i.toNat

/-- `presetBass` pattern row from `final.cpp` (B row, kick). -/
def presetBass : List Bool :=
  [true, true, false, false, false, false, true, false,
   true, true, false, false, false, false, true, false,
   true, true, false, false, false, true, false, false,
   false, true, false, false, false, true, false, false]

/-- `presetSnare` pattern row from `final.cpp` (S row, snare). -/
def presetSnare : List Bool :=
  [false, false, true, true, false, true, true, false,
   false, false, true, true, false, true, true, false,
   false, false, true, true, false, false, false, true,
   false, true, true, false, true, true, false, true]

/-- `presetClick` pattern row from `final.cpp` (R row, wired to the
hi-hat in the sequencer trigger block). -/
def presetClick : List Bool :=
  [true, true, true, true, true, true, true, true,
   true, true, true, true, true, true, true, true,
   true, true, true, true, true, true, true, true,
   true, true, true, true, false, true, true, false]

/-- `KnobToBPM` from `final.cpp`: map a normalized knob in `[0,1]` to BPM
in `[60,180]`. -/
def KnobToBPM (k : ℚ) : ℚ := 60 + (180 - 60) * k

/-- `KnobToVolume` from `final.cpp`: identity map. -/
def KnobToVolume (k : ℚ) : ℚ := k

/-- The engine's mutable state: the file-scope statics of `final.cpp`
that the audio callback reads and writes, plus the states of the DSP
objects. -/
structure EngineState where
  beatIntervalSamples : ℚ
  beatCounter : ℚ
  lastButtonKick : Bool
  lastButtonSnare : Bool
  lastEncoderButton : Bool
  currentDrumSet : Int
  presetMode : Bool
  presetPlaying : Bool
  presetStep : Nat
  subdivCounter : ℚ
  subdivIntervalSamples : ℚ
  kickOsc : Oscillator
  kickEnv : Adsr
  snareNoise : WhiteNoise
  snareEnv : Adsr
  snareFilter : Svf
  clickOsc : Oscillator
  clickEnv : Adsr
  hiHatNoise : WhiteNoise
  hiHatEnv : Adsr
  hiHatFilter : Svf
deriving DecidableEq, Repr

/-- The control snapshot read at the top of each sample iteration of the
audio callback (knob values, encoder increment, and the three raw button
levels used for edge detection). -/
structure Controls where
  tempoKnob : ℚ
  volumeKnob : ℚ
  encoderIncrement : Int
  encoderPressed : Bool
  kickPressed : Bool
  snarePressed : Bool
deriving DecidableEq, Repr

/-- Per-sample observations of the callback: the events it detects and
the named local sample values (`clkSample`, `hHatSample`, `k`, `s`,
`outSample` written to both channels) of `final.cpp`. -/
structure Output where
  beatEvent : Bool
  subdivEvent : Bool
  clickSample : ℚ
  hiHatSample : ℚ
  kickSample : ℚ
  snareSample : ℚ
  outLeft : ℚ
  outRight : ℚ
deriving DecidableEq, Repr

/-- Section 2 of the callback (lines 151–161 of `final.cpp`): recompute
`beatIntervalSamples` from the bpm, advance `beatCounter` by one sample,
and on crossing the interval subtract it (phase-preserving wrap) and
retrigger the metronome click envelope.  Returns the updated state and
whether a beat event fired. -/
def tempoStep (sampleRate bpm : ℚ) (s : EngineState) : EngineState × Bool :=
  let interval := sampleRate * (60 / bpm)
  let bc := s.beatCounter + 1
  if bc ≥ interval then
    ({ s with beatIntervalSamples := interval,
              beatCounter := bc - interval,
              clickEnv := s.clickEnv.retrigger }, true)
  else
    ({ s with beatIntervalSamples := interval, beatCounter := bc }, false)

/-- The kit-apply block inside the encoder-rotation branch (lines
175–179 of `final.cpp`): set the drum-set index and push all four kit
parameters into the voices. -/
def kitApply (idx : Int) (s : EngineState) : EngineState :=
  let p := drumParamsI idx
  { s with currentDrumSet := idx,
           kickOsc := { s.kickOsc with freq := p.kickFreq },
           kickEnv := { s.kickEnv with decayTime := p.kickDecay },
           snareFilter := { s.snareFilter with freq := p.snareFreq },
           snareEnv := { s.snareEnv with decayTime := p.snareDecay } }

/-- Section 3 of the callback (lines 170–186 of `final.cpp`): on a
nonzero encoder increment, update `currentDrumSet` by
`(currentDrumSet + increment + NUM_DRUM_SETS) % NUM_DRUM_SETS` — C++
truncated `%`, hence `Int.tmod` — and apply the new kit parameters. -/
def kitSwitch (increment : Int) (s : EngineState) : EngineState :=
  if increment ≠ 0 then
    kitApply (Int.tmod (s.currentDrumSet + increment + NUM_DRUM_SETS) NUM_DRUM_SETS) s
  else s

/-- The 1/8-subdivision timing block (lines 188–198 of `final.cpp`):
`subdivIntervalSamples` is half the beat interval, the counter advances
one sample, and on crossing the interval it wraps by subtraction and a
subdivision event is reported. -/
def subdivStep (s : EngineState) : EngineState × Bool :=
  let interval := s.beatIntervalSamples * (1 / 2)
  let sc := s.subdivCounter + 1
  if sc ≥ interval then
    ({ s with subdivIntervalSamples := interval, subdivCounter := sc - interval }, true)
  else
    ({ s with subdivIntervalSamples := interval, subdivCounter := sc }, false)

/-- The encoder-press edge block (lines 200–214 of `final.cpp`): a rising
edge toggles `presetMode`; the latch `lastEncoderButton` is refreshed.
(The LED write in the same branch is outside this core's state.) -/
def modeToggle (pressed : Bool) (s : EngineState) : EngineState :=
  let s1 := if pressed && !s.lastEncoderButton
            then { s with presetMode := !s.presetMode }
            else s
  { s1 with lastEncoderButton := pressed }

/-- The button-handling block (lines 216–237 of `final.cpp`): in manual
mode, kick/snare rising edges retrigger the corresponding envelopes; in
preset mode, a kick rising edge while not already playing starts the
preset (`presetPlaying := true`, `presetStep := 0`, `subdivCounter := 0`)
and the snare button is ignored.  Both button latches are refreshed. -/
def buttonStep (kickBtn snareBtn : Bool) (s : EngineState) : EngineState :=
  let s1 :=
    if !s.presetMode then
      let sa := if kickBtn && !s.lastButtonKick
                then { s with kickEnv := s.kickEnv.retrigger } else s
      if snareBtn && !sa.lastButtonSnare
      then { sa with snareEnv := sa.snareEnv.retrigger } else sa
    else
      if kickBtn && !s.lastButtonKick && !s.presetPlaying then
        { s with presetPlaying := true, presetStep := 0, subdivCounter := 0 }
      else s
  { s1 with lastButtonKick := kickBtn, lastButtonSnare := snareBtn }

/-- The sequencer trigger block (lines 240–259 of `final.cpp`): while in
preset mode and playing, each subdivision event retriggers the voices
whose pattern bit at `presetStep` is set (kick/snare envelopes, hi-hat
envelope for the R row), then advances `presetStep`; once it reaches
`PRESET_STEPS` the sequencer stops (leaving `presetStep` at
`PRESET_STEPS`). -/
def seqTrigger (newSubdivision : Bool) (s : EngineState) : EngineState :=
  if s.presetMode && s.presetPlaying && newSubdivision then
    let s1 := if presetBass.getD s.presetStep false
              then { s with kickEnv := s.kickEnv.retrigger } else s
    let s2 := if presetSnare.getD s1.presetStep false
              then { s1 with snareEnv := s1.snareEnv.retrigger } else s1
    let s3 := if presetClick.getD s2.presetStep false
              then { s2 with hiHatEnv := s2.hiHatEnv.retrigger } else s2
    let s4 := { s3 with presetStep := s3.presetStep + 1 }
    if s4.presetStep ≥ PRESET_STEPS then { s4 with presetPlaying := false } else s4
  else s

/-- One full iteration of the per-sample loop body of `AudioCallback` in
`final.cpp` (lines 137–284), in source order: knob reads and bpm/volume
mapping, tempo clock and click render, hi-hat render, kit switching,
subdivision timing, mode toggle, button handling, sequencer triggering,
kick and snare render, and the final mix written identically to both
output channels. -/
def audioCallbackStep (sampleRate : ℚ) (c : Controls) (s0 : EngineState) :
    EngineState × Output :=
  let bpm := KnobToBPM c.tempoKnob
  let volume := KnobToVolume c.volumeKnob
  let t := tempoStep sampleRate bpm s0
  let s1 := t.1
  let beatEvent := t.2
  let clkOsc := s1.clickOsc.process
  let clkSample := clkOsc.1 * s1.clickEnv.out
  let s2 := { s1 with clickOsc := clkOsc.2, clickEnv := s1.clickEnv.advance }
  let hhNoise := s2.hiHatNoise.process
  let hhFilter := s2.hiHatFilter.process hhNoise.1
  let hHatSample := hhFilter.high * s2.hiHatEnv.out
  let s3 := { s2 with hiHatNoise := hhNoise.2, hiHatFilter := hhFilter,
                      hiHatEnv := s2.hiHatEnv.advance }
  let s4 := kitSwitch c.encoderIncrement s3
  let sub := subdivStep s4
  let s5 := sub.1
  let newSubdivision := sub.2
  let s6 := modeToggle c.encoderPressed s5
  let s7 := buttonStep c.kickPressed c.snarePressed s6
  let s8 := seqTrigger newSubdivision s7
  let kOsc := s8.kickOsc.process
  let k := kOsc.1 * s8.kickEnv.out * (5 / 2)
  let s9 := { s8 with kickOsc := kOsc.2, kickEnv := s8.kickEnv.advance }
  let snNoise := s9.snareNoise.process
  let snFilter := s9.snareFilter.process snNoise.1
  let sSample := snFilter.band * s9.snareEnv.out
  let s10 := { s9 with snareNoise := snNoise.2, snareFilter := snFilter,
                       snareEnv := s9.snareEnv.advance }
  let outSample :=
    if !s10.presetMode then (k + sSample + clkSample) * volume
    else (k + sSample + clkSample + hHatSample) * volume
  (s10,
   { beatEvent := beatEvent, subdivEvent := newSubdivision,
     clickSample := clkSample, hiHatSample := hHatSample,
     kickSample := k, snareSample := sSample,
     outLeft := outSample, outRight := outSample })

/-- Iterate the per-sample loop body `n` times under a fixed control
snapshot, returning the final state. -/
def runSteps (sampleRate : ℚ) (c : Controls) (s : EngineState) : Nat → EngineState
  | 0 => s
  | n + 1 => runSteps sampleRate c (audioCallbackStep sampleRate c s).1 n

/-- Number of beat events fired during the first `n` samples under a
fixed control snapshot. -/
def beatCount (sampleRate : ℚ) (c : Controls) (s : EngineState) : Nat → Nat
  | 0 => 0
  | n + 1 =>
    let r := audioCallbackStep sampleRate c s
    (if r.2.beatEvent then 1 else 0) + beatCount sampleRate c r.1 n

/-- The engine state as `main` of `final.cpp` establishes it before audio
starts (all counters zero, manual mode, drum set 0, voice parameters from
`drumParams[0]` and the fixed click/hi-hat setup, at 48 kHz). -/
def initState : EngineState :=
  { beatIntervalSamples := 0
    beatCounter := 0
    lastButtonKick := false
    lastButtonSnare := false
    lastEncoderButton := false
    currentDrumSet := 0
    presetMode := false
    presetPlaying := false
    presetStep := 0
    subdivCounter := 0
    subdivIntervalSamples := 0
    kickOsc := ⟨(drumParams 0).kickFreq, 0⟩
    kickEnv := ⟨false, 0, 1/1000, (drumParams 0).kickDecay, 0, 48000⟩
    snareNoise := ⟨0⟩
    snareEnv := ⟨false, 0, 1/1000, (drumParams 0).snareDecay, 0, 48000⟩
    snareFilter := ⟨(drumParams 0).snareFreq, 7/10, 0⟩
    clickOsc := ⟨1000, 0⟩
    clickEnv := ⟨false, 0, 1/2000, 1/100, 0, 48000⟩
    hiHatNoise := ⟨0⟩
    hiHatEnv := ⟨false, 0, 1/1000, 1/20, 0, 48000⟩
    hiHatFilter := ⟨8000, 7/10, 0⟩ }

/-! Solved forms of the callback's phase functions, used to reason about
`audioCallbackStep` without unfolding everything at once. -/

theorem tempoStep_eq (sr bpm : ℚ) (s : EngineState) :
    tempoStep sr bpm s =
      ({ s with
         beatIntervalSamples := sr * (60 / bpm),
         beatCounter := if s.beatCounter + 1 ≥ sr * (60 / bpm)
                        then s.beatCounter + 1 - sr * (60 / bpm)
                        else s.beatCounter + 1,
         clickEnv := if s.beatCounter + 1 ≥ sr * (60 / bpm)
                     then s.clickEnv.retrigger else s.clickEnv },
       decide (s.beatCounter + 1 ≥ sr * (60 / bpm))) := by
  unfold tempoStep
  by_cases h : s.beatCounter + 1 ≥ sr * (60 / bpm)
  · rw [if_pos h, if_pos h, if_pos h, decide_eq_true h]
  · rw [if_neg h, if_neg h, if_neg h, decide_eq_false h]

theorem subdivStep_eq (s : EngineState) :
    subdivStep s =
      ({ s with
         subdivIntervalSamples := s.beatIntervalSamples * (1 / 2),
         subdivCounter := if s.subdivCounter + 1 ≥ s.beatIntervalSamples * (1 / 2)
                          then s.subdivCounter + 1 - s.beatIntervalSamples * (1 / 2)
                          else s.subdivCounter + 1 },
       decide (s.subdivCounter + 1 ≥ s.beatIntervalSamples * (1 / 2))) := by
  unfold subdivStep
  by_cases h : s.subdivCounter + 1 ≥ s.beatIntervalSamples * (1 / 2)
  · rw [if_pos h, if_pos h, decide_eq_true h]
  · rw [if_neg h, if_neg h, decide_eq_false h]

theorem modeToggle_eq (p : Bool) (s : EngineState) :
    modeToggle p s =
      { s with
        presetMode := if p && !s.lastEncoderButton then !s.presetMode else s.presetMode,
        lastEncoderButton := p } := by
  unfold modeToggle
  split_ifs with h <;> simp [h]

theorem buttonStep_eq (kb sb : Bool) (s : EngineState) :
    buttonStep kb sb s =
      { s with
        kickEnv := if !s.presetMode && (kb && !s.lastButtonKick)
                   then s.kickEnv.retrigger else s.kickEnv,
        snareEnv := if !s.presetMode && (sb && !s.lastButtonSnare)
                    then s.snareEnv.retrigger else s.snareEnv,
        presetPlaying := if s.presetMode && (kb && !s.lastButtonKick) && !s.presetPlaying
                         then true else s.presetPlaying,
        presetStep := if s.presetMode && (kb && !s.lastButtonKick) && !s.presetPlaying
                      then 0 else s.presetStep,
        subdivCounter := if s.presetMode && (kb && !s.lastButtonKick) && !s.presetPlaying
                         then 0 else s.subdivCounter,
        lastButtonKick := kb,
        lastButtonSnare := sb } := by
  unfold buttonStep
  rcases s with ⟨_, _, lbk, lbs, _, _, pm, pp, _, _, _⟩
  cases pm <;> cases pp <;> cases kb <;> cases sb <;> cases lbk <;> cases lbs <;> simp

theorem kitSwitch_fields (inc : Int) (s : EngineState) :
    kitSwitch inc s =
      { s with
        currentDrumSet := if inc = 0 then s.currentDrumSet
          else Int.tmod (s.currentDrumSet + inc + NUM_DRUM_SETS) NUM_DRUM_SETS,
        kickOsc := { s.kickOsc with freq := if inc = 0 then s.kickOsc.freq
          else (drumParamsI (Int.tmod (s.currentDrumSet + inc + NUM_DRUM_SETS) NUM_DRUM_SETS)).kickFreq },
        kickEnv := { s.kickEnv with decayTime := if inc = 0 then s.kickEnv.decayTime
          else (drumParamsI (Int.tmod (s.currentDrumSet + inc + NUM_DRUM_SETS) NUM_DRUM_SETS)).kickDecay },
        snareFilter := { s.snareFilter with freq := if inc = 0 then s.snareFilter.freq
          else (drumParamsI (Int.tmod (s.currentDrumSet + inc + NUM_DRUM_SETS) NUM_DRUM_SETS)).snareFreq },
        snareEnv := { s.snareEnv with decayTime := if inc = 0 then s.snareEnv.decayTime
          else (drumParamsI (Int.tmod (s.currentDrumSet + inc + NUM_DRUM_SETS) NUM_DRUM_SETS)).snareDecay } } := by
  unfold kitSwitch kitApply
  by_cases h : inc = 0 <;> simp [h]

theorem seqTrigger_eq (ns : Bool) (s : EngineState) :
    seqTrigger ns s =
      if s.presetMode && s.presetPlaying && ns then
        { s with
          kickEnv := if presetBass.getD s.presetStep false
                     then s.kickEnv.retrigger else s.kickEnv,
          snareEnv := if presetSnare.getD s.presetStep false
                      then s.snareEnv.retrigger else s.snareEnv,
          hiHatEnv := if presetClick.getD s.presetStep false
                      then s.hiHatEnv.retrigger else s.hiHatEnv,
          presetStep := s.presetStep + 1,
          presetPlaying := if s.presetStep + 1 ≥ PRESET_STEPS then false else s.presetPlaying }
      else s := by
  unfold seqTrigger
  split_ifs <;> simp_all

theorem seqTrigger_fields (ns : Bool) (s : EngineState) :
    seqTrigger ns s =
      { s with
        kickEnv := if s.presetMode && s.presetPlaying && ns
                      && presetBass.getD s.presetStep false
                   then s.kickEnv.retrigger else s.kickEnv,
        snareEnv := if s.presetMode && s.presetPlaying && ns
                       && presetSnare.getD s.presetStep false
                    then s.snareEnv.retrigger else s.snareEnv,
        hiHatEnv := if s.presetMode && s.presetPlaying && ns
                       && presetClick.getD s.presetStep false
                    then s.hiHatEnv.retrigger else s.hiHatEnv,
        presetStep := if s.presetMode && s.presetPlaying && ns
                      then s.presetStep + 1 else s.presetStep,
        presetPlaying := if s.presetMode && s.presetPlaying && ns
                         then (if s.presetStep + 1 ≥ PRESET_STEPS then false
                               else s.presetPlaying)
                         else s.presetPlaying } := by
  rw [seqTrigger_eq]
  by_cases h : (s.presetMode && s.presetPlaying && ns) = true
  · simp only [if_pos h, h, Bool.true_and, Bool.and_true]
    rcases h' : (s.presetMode && s.presetPlaying) with _ | _ <;> simp_all
  · simp only [if_neg h]
    have hb : (s.presetMode && s.presetPlaying && ns) = false := by
      revert h; cases (s.presetMode && s.presetPlaying && ns) <;> simp
    simp [hb]

/-- The mode recorded after one sample is exactly the mode after the
encoder-press edge handler: nothing later in the sample changes it. -/
theorem audioCallbackStep_proj (sr : ℚ) (c : Controls) (s : EngineState) :
    (audioCallbackStep sr c s).1.presetMode
      = (if c.encoderPressed && !s.lastEncoderButton
         then !s.presetMode else s.presetMode) := by
  simp only [audioCallbackStep, tempoStep_eq, subdivStep_eq, modeToggle_eq,
    buttonStep_eq, seqTrigger_fields, kitSwitch_fields]

theorem Adsr.retrigger_decayTime (e : Adsr) : e.retrigger.decayTime = e.decayTime := rfl

theorem Adsr.advance_decayTime (e : Adsr) : e.advance.decayTime = e.decayTime := rfl

theorem Oscillator.oscProcess_keeps_freq (o : Oscillator) : o.process.2.freq = o.freq := rfl

theorem Svf.svfProcess_keeps_freq (f : Svf) (x : ℚ) : (f.process x).freq = f.freq := rfl

theorem step_beatEvent (sr : ℚ) (c : Controls) (s : EngineState) :
    (audioCallbackStep sr c s).2.beatEvent
      = decide (s.beatCounter + 1 ≥ sr * (60 / KnobToBPM c.tempoKnob)) := by
  simp only [audioCallbackStep, tempoStep_eq, subdivStep_eq, modeToggle_eq,
    buttonStep_eq, seqTrigger_fields, kitSwitch_fields]

theorem step_beatCounter (sr : ℚ) (c : Controls) (s : EngineState) :
    (audioCallbackStep sr c s).1.beatCounter
      = if s.beatCounter + 1 ≥ sr * (60 / KnobToBPM c.tempoKnob)
        then s.beatCounter + 1 - sr * (60 / KnobToBPM c.tempoKnob)
        else s.beatCounter + 1 := by
  simp only [audioCallbackStep, tempoStep_eq, subdivStep_eq, modeToggle_eq,
    buttonStep_eq, seqTrigger_fields, kitSwitch_fields]

theorem beatCount_succ (sr : ℚ) (c : Controls) (s : EngineState) (n : Nat) :
    beatCount sr c s (n + 1)
      = (if (audioCallbackStep sr c s).2.beatEvent then 1 else 0)
        + beatCount sr c (audioCallbackStep sr c s).1 n := rfl

/-- With the tempo knob fixed at one half (120 BPM, interval 24000 at
48 kHz), a run of `n` samples starting from an integral beat counter
`m < 24000` with `m + n ≤ 24000` fires exactly one beat event when the
window reaches 24000 samples and none before. -/
theorem beatCount_window (c : Controls) (hk : c.tempoKnob = 1/2) :
    ∀ (n m : Nat) (s : EngineState), s.beatCounter = (m : ℚ) → m < 24000 →
      m + n ≤ 24000 →
      beatCount 48000 c s n = if m + n = 24000 then 1 else 0 := by
  have hI : (48000 : ℚ) * (60 / KnobToBPM c.tempoKnob) = 24000 := by
    rw [hk]; norm_num [KnobToBPM]
  intro n
  induction n with
  | zero =>
    intro m s hm hlt hle
    rw [if_neg (by omega)]
    rfl
  | succ n ih =>
    intro m s hm hlt hle
    have hbc := step_beatCounter 48000 c s
    have hbe := step_beatEvent 48000 c s
    rw [hI, hm] at hbc hbe
    rw [beatCount_succ]
    by_cases hm' : m = 23999
    · subst hm'
      have hcond : (((23999 : Nat) : ℚ) + 1 ≥ 24000) := by norm_num
      rw [if_pos hcond] at hbc
      rw [decide_eq_true hcond] at hbe
      have hn : n = 0 := by omega
      subst hn
      rw [hbe, if_pos rfl, if_pos (by omega)]
      rfl
    · have hcond : ¬((m : ℚ) + 1 ≥ 24000) := by
        have : (m : ℚ) < 23999 := by exact_mod_cast (by omega : m < 23999)
        linarith
      rw [if_neg hcond] at hbc
      rw [decide_eq_false hcond] at hbe
      rw [hbe, if_neg (by simp)]
      have hm1 : (audioCallbackStep 48000 c s).1.beatCounter = ((m + 1 : Nat) : ℚ) := by
        rw [hbc]; push_cast; ring
      have := ih (m + 1) (audioCallbackStep 48000 c s).1 hm1 (by omega) (by omega)
      rw [this]
      have : m + 1 + n = m + (n + 1) := by omega
      rw [this]
      simp

/-- Claim C1 counterexample: from kit index 0, an encoder increment of
`-7` drives `currentDrumSet` to `-1` — the C++ truncated `%` does not
bring `0 + (-7) + 6 = -1` back into `[0, 6)`. -/
theorem claim_C1_counterexample :
    (kitSwitch (-7) initState).currentDrumSet = -1
    ∧ ¬(0 ≤ (kitSwitch (-7) initState).currentDrumSet
        ∧ (kitSwitch (-7) initState).currentDrumSet < 6) := by
  have h : (kitSwitch (-7) initState).currentDrumSet = -1 := by
    simp [kitSwitch_fields, initState, NUM_DRUM_SETS]
    decide
  exact ⟨h, by rw [h]; decide⟩

/-- Claim C1 (amended): for a current kit index in `[0, 6)` and any
nonzero encoder increment of at least `-6` (so that
`index + increment + 6` is nonnegative, where C++ `%` agrees with the
mathematical modulus), the kit switch computes
`(index + increment + 6) % 6`, which lies in `[0, 6)`; in particular,
from index 0, an increment of `-1` yields 5 and `+7` yields 1. -/
theorem claim_C1_amended (idx inc : Int) (s : EngineState)
    (h0 : 0 ≤ idx) (h6 : idx < 6) (hlo : -6 ≤ inc) (hnz : inc ≠ 0) :
    ((kitSwitch inc { s with currentDrumSet := idx }).currentDrumSet = (idx + inc + 6) % 6
      ∧ 0 ≤ (kitSwitch inc { s with currentDrumSet := idx }).currentDrumSet
      ∧ (kitSwitch inc { s with currentDrumSet := idx }).currentDrumSet < 6)
    ∧ (kitSwitch (-1) initState).currentDrumSet = 5
    ∧ (kitSwitch 7 initState).currentDrumSet = 1 := by
  refine ⟨?_, ?_, ?_⟩
  · simp only [kitSwitch_fields, if_neg hnz]
    have ht : Int.tmod (idx + inc + NUM_DRUM_SETS) NUM_DRUM_SETS
        = (idx + inc + NUM_DRUM_SETS) % NUM_DRUM_SETS :=
      Int.tmod_eq_emod (by unfold NUM_DRUM_SETS; omega) (by unfold NUM_DRUM_SETS; decide)
    unfold NUM_DRUM_SETS at ht ⊢
    refine ⟨ht, ?_, ?_⟩
    · rw [ht]; exact Int.emod_nonneg _ (by decide)
    · rw [ht]; exact Int.emod_lt_of_pos _ (by decide)
  · simp [kitSwitch_fields, initState, NUM_DRUM_SETS]; decide
  · simp [kitSwitch_fields, initState, NUM_DRUM_SETS]; decide

/-- Witness for the amended claim C1, at index 0 and increment `-1`. -/
theorem claim_C1_amended_witness :
    (0 : Int) ≤ 0 ∧ (0 : Int) < 6 ∧ (-6 : Int) ≤ -1 ∧ (-1 : Int) ≠ 0
    ∧ (kitSwitch (-1) { initState with currentDrumSet := 0 }).currentDrumSet
        = (0 + -1 + 6) % 6 := by
  refine ⟨by decide, by decide, by decide, by decide, ?_⟩
  exact (claim_C1_amended 0 (-1) initState (by decide) (by decide) (by decide)
    (by decide)).1.1

/-- Claim C3: the tempo mapping is `bpm = 60 + 120·knob`;
`beatIntervalSamples = sampleRate·60/bpm` is recomputed on every sample;
at knob `1/2` and 48 kHz the interval is 24000 samples, and starting
from a zero beat counter exactly one beat event fires during the first
24000 processed samples. -/
theorem claim_C3 :
    (∀ (k : ℚ), KnobToBPM k = 60 + 120 * k)
    ∧ (∀ (sr : ℚ) (c : Controls) (s : EngineState),
        (audioCallbackStep sr c s).1.beatIntervalSamples
          = sr * 60 / KnobToBPM c.tempoKnob)
    ∧ ((48000 : ℚ) * 60 / KnobToBPM (1/2) = 24000)
    ∧ (∀ (c : Controls) (s : EngineState), c.tempoKnob = 1/2 → s.beatCounter = 0 →
        beatCount 48000 c s 24000 = 1) := by
  refine ⟨fun k => by norm_num [KnobToBPM], ?_, by norm_num [KnobToBPM], ?_⟩
  · intro sr c s
    have : (audioCallbackStep sr c s).1.beatIntervalSamples
        = sr * (60 / KnobToBPM c.tempoKnob) := by
      simp only [audioCallbackStep, tempoStep_eq, subdivStep_eq, modeToggle_eq,
        buttonStep_eq, seqTrigger_fields, kitSwitch_fields]
    rw [this, mul_div_assoc]
  · intro c s hk hbc
    have := beatCount_window c hk 24000 0 s (by rw [hbc]; norm_num) (by omega) (by omega)
    simpa using this

/-- Witness for claim C3: the initial engine state under a centred tempo
knob fires exactly one beat in its first 24000 samples. -/
theorem claim_C3_witness :
    (⟨1/2, 1, 0, false, false, false⟩ : Controls).tempoKnob = 1/2
    ∧ initState.beatCounter = 0
    ∧ beatCount 48000 ⟨1/2, 1, 0, false, false, false⟩ initState 24000 = 1 :=
  ⟨rfl, rfl, claim_C3.2.2.2 ⟨1/2, 1, 0, false, false, false⟩ initState rfl rfl⟩

/-- Claim C4: each sample advances the beat counter by one and, on
crossing `beatIntervalSamples`, subtracts the interval (phase-preserving
wrap) and retriggers the click envelope — in every mode; the subdivision
counter follows the same subtract-on-wrap discipline at half the beat
interval (it is additionally zeroed when a preset start is latched in
the same sample). -/
theorem claim_C4 (sr : ℚ) (c : Controls) (s : EngineState) :
    ((audioCallbackStep sr c s).2.beatEvent
        = decide (s.beatCounter + 1 ≥ sr * (60 / KnobToBPM c.tempoKnob)))
    ∧ ((audioCallbackStep sr c s).1.beatCounter
        = if s.beatCounter + 1 ≥ sr * (60 / KnobToBPM c.tempoKnob)
          then s.beatCounter + 1 - sr * (60 / KnobToBPM c.tempoKnob)
          else s.beatCounter + 1)
    ∧ ((audioCallbackStep sr c s).1.clickEnv
        = (if s.beatCounter + 1 ≥ sr * (60 / KnobToBPM c.tempoKnob)
           then s.clickEnv.retrigger else s.clickEnv).advance)
    ∧ ((audioCallbackStep sr c s).2.subdivEvent
        = decide (s.subdivCounter + 1 ≥ sr * (60 / KnobToBPM c.tempoKnob) * (1 / 2)))
    ∧ ((audioCallbackStep sr c s).1.subdivCounter
        = if ((audioCallbackStep sr c s).1.presetMode
               && (c.kickPressed && !s.lastButtonKick) && !s.presetPlaying) = true
          then 0
          else if s.subdivCounter + 1 ≥ sr * (60 / KnobToBPM c.tempoKnob) * (1 / 2)
               then s.subdivCounter + 1 - sr * (60 / KnobToBPM c.tempoKnob) * (1 / 2)
               else s.subdivCounter + 1) := by
  refine ⟨?_, ?_, ?_, ?_, ?_⟩ <;>
    simp only [audioCallbackStep, tempoStep_eq, subdivStep_eq, modeToggle_eq,
      buttonStep_eq, seqTrigger_fields, kitSwitch_fields]

/-- Claim C7: `kitApply` is idempotent (a second application of the same
kit index is a no-op) and atomic (all four voice parameters equal the
selected kit's table row, never a mix of two kits); through the full
callback, a nonzero encoder increment leaves all four parameters at the
new index's row. -/
theorem claim_C7 :
    (∀ (idx : Int) (s : EngineState), kitApply idx (kitApply idx s) = kitApply idx s)
    ∧ (∀ (idx : Int) (s : EngineState),
        (kitApply idx s).kickOsc.freq = (drumParamsI idx).kickFreq
        ∧ (kitApply idx s).kickEnv.decayTime = (drumParamsI idx).kickDecay
        ∧ (kitApply idx s).snareFilter.freq = (drumParamsI idx).snareFreq
        ∧ (kitApply idx s).snareEnv.decayTime = (drumParamsI idx).snareDecay)
    ∧ (∀ (sr : ℚ) (c : Controls) (s : EngineState), c.encoderIncrement ≠ 0 →
        ((audioCallbackStep sr c s).1.kickOsc.freq
          = (drumParamsI (Int.tmod (s.currentDrumSet + c.encoderIncrement + NUM_DRUM_SETS)
              NUM_DRUM_SETS)).kickFreq)
        ∧ ((audioCallbackStep sr c s).1.kickEnv.decayTime
          = (drumParamsI (Int.tmod (s.currentDrumSet + c.encoderIncrement + NUM_DRUM_SETS)
              NUM_DRUM_SETS)).kickDecay)
        ∧ ((audioCallbackStep sr c s).1.snareFilter.freq
          = (drumParamsI (Int.tmod (s.currentDrumSet + c.encoderIncrement + NUM_DRUM_SETS)
              NUM_DRUM_SETS)).snareFreq)
        ∧ ((audioCallbackStep sr c s).1.snareEnv.decayTime
          = (drumParamsI (Int.tmod (s.currentDrumSet + c.encoderIncrement + NUM_DRUM_SETS)
              NUM_DRUM_SETS)).snareDecay)) := by
  refine ⟨fun idx s => rfl, fun idx s => ⟨rfl, rfl, rfl, rfl⟩, fun sr c s hnz => ?_⟩
  refine ⟨?_, ?_, ?_, ?_⟩ <;>
    simp [audioCallbackStep, tempoStep_eq, subdivStep_eq, modeToggle_eq,
      buttonStep_eq, seqTrigger_fields, kitSwitch_fields, hnz,
      apply_ite Adsr.decayTime, Adsr.retrigger_decayTime, Adsr.advance_decayTime,
      Oscillator.oscProcess_keeps_freq, Svf.svfProcess_keeps_freq]

/-- Witness for claim C7, at encoder increment `+1` from the initial
state. -/
theorem claim_C7_witness :
    (1 : Int) ≠ 0
    ∧ (audioCallbackStep 48000 ⟨1/2, 1, 1, false, false, false⟩ initState).1.kickOsc.freq
        = (drumParamsI (Int.tmod (initState.currentDrumSet + 1 + NUM_DRUM_SETS)
            NUM_DRUM_SETS)).kickFreq :=
  ⟨by decide, (claim_C7.2.2 48000 ⟨1/2, 1, 1, false, false, false⟩ initState (by decide)).1⟩

/-- A preset-mode engine state at rest (used as a concrete witness
input). -/
def presetStopped : EngineState := { initState with presetMode := true }

/-- A preset-mode engine state that is playing at step 0 (used as a
concrete witness input). -/
def presetRunning : EngineState :=
  { initState with presetMode := true, presetPlaying := true }

/-- A playing preset-mode state whose subdivision counter is one sample
short of the 1/8-note interval at 120 BPM / 48 kHz (used as a concrete
witness input). -/
def presetRunningLate : EngineState :=
  { initState with presetMode := true, presetPlaying := true, subdivCounter := 11999 }

/-- Controls at 120 BPM, full volume, nothing touched. -/
def knobCentered : Controls := ⟨1/2, 1, 0, false, false, false⟩

/-- Controls at 120 BPM with the kick button held. -/
def kickPress : Controls := ⟨1/2, 1, 0, false, true, false⟩

/-- Claim C2: in preset mode, a kick rising edge while not playing
starts the sequencer at step 0 with a zeroed subdivision counter; each
subdivision event retriggers the voices whose pattern bit at the current
step is set and then advances the step; exactly 32 subdivision events
return the sequencer to stopped with the step left at 32; and the step
never exceeds 32. -/
theorem claim_C2 :
    (∀ (sr : ℚ) (c : Controls) (s : EngineState),
        (modeToggle c.encoderPressed s).presetMode = true →
        c.kickPressed = true → s.lastButtonKick = false → s.presetPlaying = false →
        ¬(s.subdivCounter + 1 ≥ sr * (60 / KnobToBPM c.tempoKnob) * (1 / 2)) →
        (audioCallbackStep sr c s).1.presetPlaying = true
        ∧ (audioCallbackStep sr c s).1.presetStep = 0
        ∧ (audioCallbackStep sr c s).1.subdivCounter = 0)
    ∧ (∀ (sr : ℚ) (c : Controls) (s : EngineState),
        (modeToggle c.encoderPressed s).presetMode = true →
        s.presetPlaying = true →
        s.subdivCounter + 1 ≥ sr * (60 / KnobToBPM c.tempoKnob) * (1 / 2) →
        c.encoderIncrement = 0 →
        (audioCallbackStep sr c s).1.presetStep = s.presetStep + 1
        ∧ (audioCallbackStep sr c s).1.presetPlaying
            = (if s.presetStep + 1 ≥ PRESET_STEPS then false else true)
        ∧ (audioCallbackStep sr c s).1.kickEnv
            = (if presetBass.getD s.presetStep false
               then s.kickEnv.retrigger else s.kickEnv).advance
        ∧ (audioCallbackStep sr c s).1.snareEnv
            = (if presetSnare.getD s.presetStep false
               then s.snareEnv.retrigger else s.snareEnv).advance
        ∧ (audioCallbackStep sr c s).1.hiHatEnv
            = (if presetClick.getD s.presetStep false
               then s.hiHatEnv.advance.retrigger else s.hiHatEnv.advance))
    ∧ (∀ (s : EngineState), s.presetMode = true → s.presetPlaying = true →
        s.presetStep = 0 →
        ∀ k, k ≤ PRESET_STEPS →
          ((seqTrigger true)^[k] s).presetStep = k
          ∧ ((seqTrigger true)^[k] s).presetPlaying = decide (k < PRESET_STEPS))
    ∧ (∀ (sr : ℚ) (c : Controls) (s : EngineState),
        s.presetStep ≤ PRESET_STEPS →
        (s.presetPlaying = true → s.presetStep < PRESET_STEPS) →
        (audioCallbackStep sr c s).1.presetStep ≤ PRESET_STEPS
        ∧ ((audioCallbackStep sr c s).1.presetPlaying = true →
            (audioCallbackStep sr c s).1.presetStep < PRESET_STEPS)) := by
  refine ⟨?_, ?_, ?_, ?_⟩
  · intro sr c s hmode hk hlk hp hns
    simp only [modeToggle_eq] at hmode
    have hns' : s.subdivCounter + 1 < sr * (60 / KnobToBPM c.tempoKnob) * (1 / 2) := by
      rw [ge_iff_le, not_le] at hns; exact hns
    rcases htog : (c.encoderPressed && !s.lastEncoderButton) with _ | _ <;>
      rw [htog] at hmode <;>
      simp only [if_true, if_false, Bool.false_eq_true, Bool.not_eq_true] at hmode
    · refine ⟨?_, ?_, ?_⟩ <;>
        (simp only [audioCallbackStep, tempoStep_eq, subdivStep_eq, modeToggle_eq,
           buttonStep_eq, seqTrigger_fields, kitSwitch_fields];
         simp [htog, hmode, hk, hlk, hp, decide_eq_false hns] <;>
         first
           | exact Or.inl (by linarith)
           | linarith)
    · have hmode' : s.presetMode = false := by
        revert hmode; cases s.presetMode <;> simp
      refine ⟨?_, ?_, ?_⟩ <;>
        (simp only [audioCallbackStep, tempoStep_eq, subdivStep_eq, modeToggle_eq,
           buttonStep_eq, seqTrigger_fields, kitSwitch_fields];
         simp [htog, hmode', hk, hlk, hp, decide_eq_false hns] <;>
         first
           | exact Or.inl (by linarith)
           | linarith)
  · intro sr c s hmode hplay hsub hinc
    simp only [modeToggle_eq] at hmode
    have hsub' : sr * (60 / KnobToBPM c.tempoKnob) * 2⁻¹ ≤ s.subdivCounter + 1 := by
      rw [ge_iff_le, one_div] at hsub; exact hsub
    rcases htog : (c.encoderPressed && !s.lastEncoderButton) with _ | _ <;>
      rw [htog] at hmode <;>
      simp only [if_true, if_false, Bool.false_eq_true, Bool.not_eq_true] at hmode
    · refine ⟨?_, ?_, ?_, ?_, ?_⟩ <;>
        (simp only [audioCallbackStep, tempoStep_eq, subdivStep_eq, modeToggle_eq,
           buttonStep_eq, seqTrigger_fields, kitSwitch_fields];
         simp [htog, hmode, hplay, hinc, hsub'])
    · have hmode' : s.presetMode = false := by
        revert hmode; cases s.presetMode <;> simp
      refine ⟨?_, ?_, ?_, ?_, ?_⟩ <;>
        (simp only [audioCallbackStep, tempoStep_eq, subdivStep_eq, modeToggle_eq,
           buttonStep_eq, seqTrigger_fields, kitSwitch_fields];
         simp [htog, hmode', hplay, hinc, hsub'])
  · intro s hm hp hst
    have main : ∀ k, k ≤ 32 →
        ((seqTrigger true)^[k] s).presetMode = true
        ∧ ((seqTrigger true)^[k] s).presetStep = k
        ∧ ((seqTrigger true)^[k] s).presetPlaying = decide (k < 32) := by
      intro k
      induction k with
      | zero =>
        intro _
        simp only [Function.iterate_zero_apply]
        exact ⟨hm, hst, by rw [hp]; symm; exact decide_eq_true (by norm_num)⟩
      | succ k ih =>
        intro hk1
        obtain ⟨ihm, ihst, ihp⟩ := ih (by omega)
        have hklt : k < 32 := by omega
        rw [Function.iterate_succ_apply', seqTrigger_fields]
        refine ⟨?_, ?_, ?_⟩ <;>
          simp only [ihm, ihst, ihp, decide_eq_true hklt, Bool.true_and, Bool.and_true,
            PRESET_STEPS, if_true]
        rcases Nat.lt_or_ge (k + 1) 32 with h32 | h32
        · rw [if_neg (by omega), decide_eq_true h32]
        · have h32' : ¬(k + 1 < 32) := by omega
          rw [if_pos (by omega), decide_eq_false h32']
    intro k hk
    unfold PRESET_STEPS at hk ⊢
    exact ⟨(main k hk).2.1, (main k hk).2.2⟩
  · intro sr c s h1 h2
    unfold PRESET_STEPS at h1 h2 ⊢
    simp only [audioCallbackStep, tempoStep_eq, subdivStep_eq, modeToggle_eq,
      buttonStep_eq, seqTrigger_fields, kitSwitch_fields]
    unfold PRESET_STEPS
    split_ifs <;> simp_all <;> try omega
    all_goals (split_ifs <;> simp_all <;> omega)

/-- Witness for claim C2: concrete preset-mode runs at 120 BPM / 48 kHz
for each part — a start press, a subdivision event, the 32-event
shutdown, and the step bound. -/
theorem claim_C2_witness :
    ((modeToggle kickPress.encoderPressed presetStopped).presetMode = true
      ∧ kickPress.kickPressed = true ∧ presetStopped.lastButtonKick = false
      ∧ presetStopped.presetPlaying = false
      ∧ ¬(presetStopped.subdivCounter + 1
            ≥ 48000 * (60 / KnobToBPM kickPress.tempoKnob) * (1 / 2))
      ∧ (audioCallbackStep 48000 kickPress presetStopped).1.presetPlaying = true
      ∧ (audioCallbackStep 48000 kickPress presetStopped).1.presetStep = 0)
    ∧ (presetRunningLate.subdivCounter + 1
          ≥ 48000 * (60 / KnobToBPM knobCentered.tempoKnob) * (1 / 2)
      ∧ (audioCallbackStep 48000 knobCentered presetRunningLate).1.presetStep
          = presetRunningLate.presetStep + 1)
    ∧ ((seqTrigger true)^[32] presetRunning).presetPlaying = decide (32 < PRESET_STEPS)
    ∧ ((audioCallbackStep 48000 knobCentered initState).1.presetStep ≤ PRESET_STEPS) := by
  have hns : ¬(presetStopped.subdivCounter + 1
      ≥ 48000 * (60 / KnobToBPM kickPress.tempoKnob) * (1 / 2)) := by
    show ¬((0 : ℚ) + 1 ≥ 48000 * (60 / KnobToBPM (1/2)) * (1 / 2))
    norm_num [KnobToBPM]
  have hsub : presetRunningLate.subdivCounter + 1
      ≥ 48000 * (60 / KnobToBPM knobCentered.tempoKnob) * (1 / 2) := by
    show ((11999 : ℚ) + 1 ≥ 48000 * (60 / KnobToBPM (1/2)) * (1 / 2))
    norm_num [KnobToBPM]
  have ha := claim_C2.1 48000 kickPress presetStopped rfl rfl rfl rfl hns
  have hb := claim_C2.2.1 48000 knobCentered presetRunningLate rfl rfl hsub rfl
  have hc := (claim_C2.2.2.1 presetRunning rfl rfl rfl 32 (by decide)).2
  have hd := (claim_C2.2.2.2 48000 knobCentered initState (by decide)
    (fun h => by simp [initState] at h)).1
  exact ⟨⟨rfl, rfl, rfl, rfl, hns, ha.1, ha.2.1⟩, ⟨hsub, hb.1⟩, hc, hd⟩

/-- Controls at 120 BPM with the encoder button held down (used for the
mode-toggle scenarios). -/
def encoderPress : Controls := ⟨1/2, 1, 0, true, false, false⟩
/-- A playing preset-mode state mid-pattern at step 5 (used as a
concrete witness input). -/
def presetRunningMid : EngineState :=
  { initState with presetMode := true, presetPlaying := true, presetStep := 5 }

set_option maxHeartbeats 2000000 in
/-- Claim C5: an encoder-press rising edge toggles the mode and leaves
the sequencer sub-state (playing flag, current step, subdivision
counter) untouched; concretely, toggling to manual and back to preset
while playing at step 5 leaves the sequencer playing at step 5. -/
theorem claim_C5 :
    (∀ (p : Bool) (s : EngineState),
        (modeToggle p s).presetPlaying = s.presetPlaying
        ∧ (modeToggle p s).presetStep = s.presetStep
        ∧ (modeToggle p s).subdivCounter = s.subdivCounter
        ∧ (modeToggle p s).presetMode
            = (if p && !s.lastEncoderButton then !s.presetMode else s.presetMode))
    ∧ (((audioCallbackStep 48000 encoderPress presetRunningMid).1.presetMode,
        (audioCallbackStep 48000 encoderPress presetRunningMid).1.presetPlaying,
        (audioCallbackStep 48000 encoderPress presetRunningMid).1.presetStep)
          = (false, true, 5))
    ∧ (((audioCallbackStep 48000 encoderPress
          (audioCallbackStep 48000 knobCentered
            (audioCallbackStep 48000 encoderPress presetRunningMid).1).1).1.presetMode,
        (audioCallbackStep 48000 encoderPress
          (audioCallbackStep 48000 knobCentered
            (audioCallbackStep 48000 encoderPress presetRunningMid).1).1).1.presetPlaying,
        (audioCallbackStep 48000 encoderPress
          (audioCallbackStep 48000 knobCentered
            (audioCallbackStep 48000 encoderPress presetRunningMid).1).1).1.presetStep)
          = (true, true, 5)) := by
  refine ⟨fun p s => ⟨by simp [modeToggle_eq], by simp [modeToggle_eq],
      by simp [modeToggle_eq], by simp [modeToggle_eq]⟩, ?_, ?_⟩ <;>
    norm_num [audioCallbackStep, tempoStep_eq, subdivStep_eq, modeToggle_eq,
      buttonStep_eq, seqTrigger_fields, kitSwitch_fields, initState, presetRunningMid,
      encoderPress, knobCentered, KnobToBPM, KnobToVolume, PRESET_STEPS]

/-- Claim C6: in manual mode, a kick (resp. snare) rising edge — and
only a rising edge — retriggers the corresponding envelope before the
render of the same sample, so the kick-voice sample of that sample is
the nonzero value 5/2; while the button stays held (latch updated, no
new edge) the envelope only advances. -/
theorem claim_C6 (sr : ℚ) (c : Controls) (s : EngineState)
    (hmode : (modeToggle c.encoderPressed s).presetMode = false)
    (hinc : c.encoderIncrement = 0) :
    ((audioCallbackStep sr c s).1.kickEnv
      = (if c.kickPressed && !s.lastButtonKick
         then s.kickEnv.retrigger else s.kickEnv).advance)
    ∧ ((audioCallbackStep sr c s).1.snareEnv
      = (if c.snarePressed && !s.lastButtonSnare
         then s.snareEnv.retrigger else s.snareEnv).advance)
    ∧ (audioCallbackStep sr c s).1.lastButtonKick = c.kickPressed
    ∧ (audioCallbackStep sr c s).1.lastButtonSnare = c.snarePressed
    ∧ ((c.kickPressed && !s.lastButtonKick) = true →
        (audioCallbackStep sr c s).2.kickSample = 5/2
        ∧ (audioCallbackStep sr c s).2.kickSample ≠ 0) := by
  simp only [modeToggle_eq] at hmode
  rcases htog : (c.encoderPressed && !s.lastEncoderButton) with _ | _ <;>
    rw [htog] at hmode <;>
    simp only [if_true, if_false, Bool.false_eq_true, Bool.not_eq_true] at hmode
  · have hmode' : s.presetMode = false := by
      revert hmode; cases s.presetMode <;> simp
    refine ⟨?_, ?_, ?_, ?_, fun hrise => ?_⟩
    · simp only [audioCallbackStep, tempoStep_eq, subdivStep_eq, modeToggle_eq,
        buttonStep_eq, seqTrigger_fields, kitSwitch_fields]
      simp [htog, hmode', hinc]
    · simp only [audioCallbackStep, tempoStep_eq, subdivStep_eq, modeToggle_eq,
        buttonStep_eq, seqTrigger_fields, kitSwitch_fields]
      simp [htog, hmode', hinc]
    · simp only [audioCallbackStep, tempoStep_eq, subdivStep_eq, modeToggle_eq,
        buttonStep_eq, seqTrigger_fields, kitSwitch_fields]
    · simp only [audioCallbackStep, tempoStep_eq, subdivStep_eq, modeToggle_eq,
        buttonStep_eq, seqTrigger_fields, kitSwitch_fields]
    · have hrise2 := hrise
      simp only [Bool.and_eq_true, Bool.not_eq_true'] at hrise2
      obtain ⟨hk, hlk⟩ := hrise2
      refine ⟨?_, ?_⟩ <;>
        (simp only [audioCallbackStep, tempoStep_eq, subdivStep_eq, modeToggle_eq,
           buttonStep_eq, seqTrigger_fields, kitSwitch_fields];
         simp [htog, hmode', hinc, hk, hlk, Adsr.out, Adsr.retrigger,
           Oscillator.process])
  · have hmode' : s.presetMode = true := by
      revert hmode; cases s.presetMode <;> simp
    refine ⟨?_, ?_, ?_, ?_, fun hrise => ?_⟩
    · simp only [audioCallbackStep, tempoStep_eq, subdivStep_eq, modeToggle_eq,
        buttonStep_eq, seqTrigger_fields, kitSwitch_fields]
      simp [htog, hmode', hinc]
    · simp only [audioCallbackStep, tempoStep_eq, subdivStep_eq, modeToggle_eq,
        buttonStep_eq, seqTrigger_fields, kitSwitch_fields]
      simp [htog, hmode', hinc]
    · simp only [audioCallbackStep, tempoStep_eq, subdivStep_eq, modeToggle_eq,
        buttonStep_eq, seqTrigger_fields, kitSwitch_fields]
    · simp only [audioCallbackStep, tempoStep_eq, subdivStep_eq, modeToggle_eq,
        buttonStep_eq, seqTrigger_fields, kitSwitch_fields]
    · have hrise2 := hrise
      simp only [Bool.and_eq_true, Bool.not_eq_true'] at hrise2
      obtain ⟨hk, hlk⟩ := hrise2
      refine ⟨?_, ?_⟩ <;>
        (simp only [audioCallbackStep, tempoStep_eq, subdivStep_eq, modeToggle_eq,
           buttonStep_eq, seqTrigger_fields, kitSwitch_fields];
         simp [htog, hmode', hinc, hk, hlk, Adsr.out, Adsr.retrigger,
           Oscillator.process])

/-- Witness for claim C6: a kick press in manual mode from the initial
state produces a nonzero kick sample in the same callback iteration. -/
theorem claim_C6_witness :
    (modeToggle kickPress.encoderPressed initState).presetMode = false
    ∧ kickPress.encoderIncrement = 0
    ∧ (kickPress.kickPressed && !initState.lastButtonKick) = true
    ∧ (audioCallbackStep 48000 kickPress initState).2.kickSample = 5/2 := by
  refine ⟨rfl, rfl, rfl, ?_⟩
  exact ((claim_C6 48000 kickPress initState rfl rfl).2.2.2.2 rfl).1

/-- Claim C9: the output sample written identically to both channels is
(kick + snare + click) times the volume, with the hi-hat sample added
exactly when the sample ends in preset mode; the hi-hat noise source and
filter advance on every sample regardless, and in manual mode the hi-hat
envelope advances without being retriggered. -/
theorem claim_C9 (sr : ℚ) (c : Controls) (s : EngineState) :
    ((audioCallbackStep sr c s).2.outLeft
      = ((audioCallbackStep sr c s).2.kickSample
         + (audioCallbackStep sr c s).2.snareSample
         + (audioCallbackStep sr c s).2.clickSample
         + (if (audioCallbackStep sr c s).1.presetMode
            then (audioCallbackStep sr c s).2.hiHatSample else 0))
        * KnobToVolume c.volumeKnob)
    ∧ (audioCallbackStep sr c s).2.outRight = (audioCallbackStep sr c s).2.outLeft
    ∧ (audioCallbackStep sr c s).1.hiHatNoise = (s.hiHatNoise.process).2
    ∧ (audioCallbackStep sr c s).1.hiHatFilter
        = s.hiHatFilter.process (s.hiHatNoise.process).1
    ∧ ((audioCallbackStep sr c s).1.presetMode = false →
        (audioCallbackStep sr c s).1.hiHatEnv = s.hiHatEnv.advance) := by
  rcases htog : (c.encoderPressed && !s.lastEncoderButton) with _ | _ <;>
    rcases hpm : s.presetMode with _ | _ <;>
    refine ⟨?_, ?_, ?_, ?_, fun hm => ?_⟩ <;>
    · first
      | (simp only [audioCallbackStep, tempoStep_eq, subdivStep_eq, modeToggle_eq,
           buttonStep_eq, seqTrigger_fields, kitSwitch_fields] at hm ⊢ <;>
         simp [htog, hpm] at hm ⊢)
      | (simp only [audioCallbackStep, tempoStep_eq, subdivStep_eq, modeToggle_eq,
           buttonStep_eq, seqTrigger_fields, kitSwitch_fields] <;>
         simp [htog, hpm])



/-- Witness for claim C9: one manual-mode sample from the initial state
advances the hi-hat envelope without retriggering it. -/
theorem claim_C9_witness :
    (audioCallbackStep 48000 knobCentered initState).1.presetMode = false
    ∧ (audioCallbackStep 48000 knobCentered initState).1.hiHatEnv
        = initState.hiHatEnv.advance := by
  have hmode : (audioCallbackStep 48000 knobCentered initState).1.presetMode = false := by
    rw [audioCallbackStep_proj]; rfl
  exact ⟨hmode, (claim_C9 48000 knobCentered initState).2.2.2.2 hmode⟩

/-- Claim C10: once the sample's mode (after the encoder-press handler)
is preset, the snare button has no effect beyond its edge-detection
latch — the whole result equals the no-press run with only
`lastButtonSnare` overridden — and, while already playing, the kick
button likewise has no effect beyond its latch (no pattern restart, no
counter reset). -/
theorem claim_C10 (sr : ℚ) (c : Controls) (s : EngineState)
    (hmode : (modeToggle c.encoderPressed s).presetMode = true) :
    (audioCallbackStep sr c s
      = ({ (audioCallbackStep sr { c with snarePressed := false } s).1 with
            lastButtonSnare := c.snarePressed },
         (audioCallbackStep sr { c with snarePressed := false } s).2))
    ∧ (s.presetPlaying = true →
        audioCallbackStep sr c s
          = ({ (audioCallbackStep sr { c with kickPressed := false } s).1 with
                lastButtonKick := c.kickPressed },
             (audioCallbackStep sr { c with kickPressed := false } s).2)) := by
  simp only [modeToggle_eq] at hmode
  rcases htog : (c.encoderPressed && !s.lastEncoderButton) with _ | _ <;>
    rw [htog] at hmode <;>
    simp only [if_true, if_false, Bool.false_eq_true, Bool.not_eq_true] at hmode
  · refine ⟨?_, fun hplay => ?_⟩ <;>
      (simp only [audioCallbackStep, tempoStep_eq, subdivStep_eq, modeToggle_eq,
         buttonStep_eq, seqTrigger_fields, kitSwitch_fields];
       simp [htog, hmode, Prod.ext_iff] <;> try simp [hplay])
  · have hmode' : s.presetMode = false := by
      revert hmode; cases s.presetMode <;> simp
    refine ⟨?_, fun hplay => ?_⟩ <;>
      (simp only [audioCallbackStep, tempoStep_eq, subdivStep_eq, modeToggle_eq,
         buttonStep_eq, seqTrigger_fields, kitSwitch_fields];
       simp [htog, hmode', Prod.ext_iff] <;> try simp [hplay])



/-- Controls at 120 BPM with the snare button held. -/
def snarePress : Controls := ⟨1/2, 1, 0, false, false, true⟩

/-- Witness for claim C10: a held snare button in preset mode, and a
held kick button while playing, leave everything but the latch
unchanged. -/
theorem claim_C10_witness :
    (modeToggle snarePress.encoderPressed presetStopped).presetMode = true
    ∧ (modeToggle kickPress.encoderPressed presetRunning).presetMode = true
    ∧ presetRunning.presetPlaying = true
    ∧ (audioCallbackStep 48000 snarePress presetStopped
        = ({ (audioCallbackStep 48000 { snarePress with snarePressed := false }
                presetStopped).1 with
              lastButtonSnare := snarePress.snarePressed },
           (audioCallbackStep 48000 { snarePress with snarePressed := false }
              presetStopped).2))
    ∧ (audioCallbackStep 48000 kickPress presetRunning
        = ({ (audioCallbackStep 48000 { kickPress with kickPressed := false }
                presetRunning).1 with
              lastButtonKick := kickPress.kickPressed },
           (audioCallbackStep 48000 { kickPress with kickPressed := false }
              presetRunning).2)) :=
  ⟨rfl, rfl, rfl,
   (claim_C10 48000 snarePress presetStopped rfl).1,
   (claim_C10 48000 kickPress presetRunning rfl).2 rfl⟩

end DrumMachine

namespace DelayFx

/-- `DELAY_BUFFER_SIZE` from `hw2.cpp`: one second at 48 kHz. -/
def DELAY_BUFFER_SIZE : Int := 48000

/-- C++ `(int)` cast of a floating value: truncation toward zero. -/
def cppIntCast (q : ℚ) : Int :=
  if q < 0 then -(⌊-q⌋) else ⌊q⌋

/-- The `ModulatedDelay` class of `hw2.cpp`.  The delay line
`delay_buffer_` is embedded as a total function `Int → ℚ`; in the C++
source an index outside `[0, DELAY_BUFFER_SIZE)` would be an
out-of-bounds access (undefined behaviour) — the safety theorems show the
computed indices stay in range.  The external `daisysp::Oscillator` LFO
is represented by its frequency parameter (`lfo_freq_`, set through
`SetLFOFrequency`); its per-sample output is passed into `Process` as an
explicit argument, so no assumption about the LFO waveform is made. -/
structure ModulatedDelay where
  delay_buffer_ : Int → ℚ
  write_index_ : Int
  delay_time_samples_ : ℚ
  feedback_amount_ : ℚ
  wet_dry_mix_ : ℚ
  lfo_freq_ : ℚ
  lfo_depth_ : ℚ
  sample_rate_ : ℚ
  input_filter_state_ : ℚ
  feedback_filter_state_ : ℚ

/-- `ModulatedDelay::Init` from `hw2.cpp`: safe defaults, cleared buffer,
LFO at 0.5 Hz. -/
def ModulatedDelay.Init (sample_rate : ℚ) : ModulatedDelay :=
  { delay_buffer_ := fun _ => 0
    write_index_ := 0
    delay_time_samples_ := (1 / 10) * sample_rate
    feedback_amount_ := 3 / 10
    wet_dry_mix_ := 1 / 2
    lfo_freq_ := 1 / 2
    lfo_depth_ := 1 / 5
    sample_rate_ := sample_rate
    input_filter_state_ := 0
    feedback_filter_state_ := 0 }

/-- `SetDelayTime` from `hw2.cpp`: clamp the requested delay to
`[0.01 s, 0.9 s]` before converting to samples. -/
def ModulatedDelay.SetDelayTime (m : ModulatedDelay) (delay_seconds : ℚ) :
    ModulatedDelay :=
  let d := max (1 / 100) (min (9 / 10) delay_seconds)
  { m with delay_time_samples_ := d * m.sample_rate_ }

/-- The clamped seconds value computed inside `SetDelayTime`. -/
def ModulatedDelay.clampedDelaySeconds (delay_seconds : ℚ) : ℚ :=
  max (1 / 100) (min (9 / 10) delay_seconds)

/-- `SetFeedback` from `hw2.cpp`: clamp to `[0, 0.85]`. -/
def ModulatedDelay.SetFeedback (m : ModulatedDelay) (feedback : ℚ) :
    ModulatedDelay :=
  { m with feedback_amount_ := max 0 (min (17 / 20) feedback) }

/-- `SetWetDryMix` from `hw2.cpp`: clamp to `[0, 1]`. -/
def ModulatedDelay.SetWetDryMix (m : ModulatedDelay) (mix : ℚ) :
    ModulatedDelay :=
  { m with wet_dry_mix_ := max 0 (min 1 mix) }

/-- `SetLFOFrequency` from `hw2.cpp`: clamp to `[0.01 Hz, 10 Hz]` before
pushing into the LFO oscillator. -/
def ModulatedDelay.SetLFOFrequency (m : ModulatedDelay) (frequency : ℚ) :
    ModulatedDelay :=
  { m with lfo_freq_ := max (1 / 100) (min 10 frequency) }

/-- `SetLFODepth` from `hw2.cpp`: clamp to `[0, 0.8]`. -/
def ModulatedDelay.SetLFODepth (m : ModulatedDelay) (depth : ℚ) :
    ModulatedDelay :=
  { m with lfo_depth_ := max 0 (min (4 / 5) depth) }

/-- The modulated delay value computed in `Process` (lines 91–92 of
`hw2.cpp`), clamped at the point of use to
`[1, DELAY_BUFFER_SIZE - 1]`. -/
def ModulatedDelay.modulatedDelayOf (m : ModulatedDelay) (lfo_value : ℚ) : ℚ :=
  let md := m.delay_time_samples_ * (1 + m.lfo_depth_ * lfo_value)
  max 1 (min ((DELAY_BUFFER_SIZE : ℚ) - 1) md)

/-- The read position computed in `Process` (lines 95–98 of `hw2.cpp`):
`write_index_ - modulated_delay`, wrapped up by one buffer length if
negative. -/
def ModulatedDelay.readPosOf (m : ModulatedDelay) (lfo_value : ℚ) : ℚ :=
  if (m.write_index_ : ℚ) - m.modulatedDelayOf lfo_value < 0
  then (m.write_index_ : ℚ) - m.modulatedDelayOf lfo_value + (DELAY_BUFFER_SIZE : ℚ)
  else (m.write_index_ : ℚ) - m.modulatedDelayOf lfo_value

/-- The first interpolation read index of `Process` (line 101 of
`hw2.cpp`): C++ `(int)` truncation of the read position. -/
def ModulatedDelay.readIndex1Of (m : ModulatedDelay) (lfo_value : ℚ) : Int :=
  cppIntCast (m.readPosOf lfo_value)

/-- The second interpolation read index of `Process` (line 102 of
`hw2.cpp`): `(read_index1 + 1) % DELAY_BUFFER_SIZE` with C++ `%`. -/
def ModulatedDelay.readIndex2Of (m : ModulatedDelay) (lfo_value : ℚ) : Int :=
  Int.tmod (m.readIndex1Of lfo_value + 1) DELAY_BUFFER_SIZE

/-- `ModulatedDelay::Process` from `hw2.cpp`: input DC-blocking filter,
LFO-modulated delay-line read with linear interpolation, feedback
filtering, buffer write, write-index advance, and wet/dry mix.  The
current LFO output sample is an explicit argument (see
`ModulatedDelay`). -/
def ModulatedDelay.Process (m : ModulatedDelay) (lfo_value input : ℚ) :
    ModulatedDelay × ℚ :=
  let ifs := m.input_filter_state_ + (1 / 1000) * (input - m.input_filter_state_)
  let filtered_input := input - ifs
  let read_pos := m.readPosOf lfo_value
  let read_index1 := m.readIndex1Of lfo_value
  let read_index2 := m.readIndex2Of lfo_value
  let frac := read_pos - (read_index1 : ℚ)
  let delayed_sample := m.delay_buffer_ read_index1 * (1 - frac) +
                        m.delay_buffer_ read_index2 * frac
  let ffs := m.feedback_filter_state_ +
             (3 / 10) * (delayed_sample * m.feedback_amount_ - m.feedback_filter_state_)
  let buf := fun i => if i = m.write_index_ then filtered_input + ffs
                      else m.delay_buffer_ i
  ({ m with delay_buffer_ := buf
            input_filter_state_ := ifs
            feedback_filter_state_ := ffs
            write_index_ := Int.tmod (m.write_index_ + 1) DELAY_BUFFER_SIZE },
   filtered_input * (1 - m.wet_dry_mix_) + delayed_sample * m.wet_dry_mix_)

/-- Claim C8: every `ModulatedDelay` setter clamps its parameter to the
documented safe range (delay 0.01–0.9 s, feedback 0–0.85, LFO frequency
0.01–10 Hz, LFO depth 0–0.8); `Process` clamps the modulated delay to
`[1, DELAY_BUFFER_SIZE - 1]` at the point of use, so for any LFO output
and any in-range write index both interpolation read indices and the
advanced write index stay inside `[0, DELAY_BUFFER_SIZE)`. -/
theorem claim_C8 :
    (∀ (m : ModulatedDelay) (x : ℚ),
        (1 / 100 : ℚ) ≤ ModulatedDelay.clampedDelaySeconds x
        ∧ ModulatedDelay.clampedDelaySeconds x ≤ 9 / 10
        ∧ (m.SetDelayTime x).delay_time_samples_
            = ModulatedDelay.clampedDelaySeconds x * m.sample_rate_)
    ∧ (∀ (m : ModulatedDelay) (x : ℚ),
        0 ≤ (m.SetFeedback x).feedback_amount_
        ∧ (m.SetFeedback x).feedback_amount_ ≤ 17 / 20)
    ∧ (∀ (m : ModulatedDelay) (x : ℚ),
        (1 / 100 : ℚ) ≤ (m.SetLFOFrequency x).lfo_freq_
        ∧ (m.SetLFOFrequency x).lfo_freq_ ≤ 10)
    ∧ (∀ (m : ModulatedDelay) (x : ℚ),
        0 ≤ (m.SetLFODepth x).lfo_depth_
        ∧ (m.SetLFODepth x).lfo_depth_ ≤ 4 / 5)
    ∧ (∀ (m : ModulatedDelay) (lfo : ℚ),
        1 ≤ m.modulatedDelayOf lfo
        ∧ m.modulatedDelayOf lfo ≤ (DELAY_BUFFER_SIZE : ℚ) - 1)
    ∧ (∀ (m : ModulatedDelay) (lfo input : ℚ),
        0 ≤ m.write_index_ → m.write_index_ < DELAY_BUFFER_SIZE →
        (0 ≤ m.readPosOf lfo ∧ m.readPosOf lfo < ((DELAY_BUFFER_SIZE : Int) : ℚ))
        ∧ (0 ≤ m.readIndex1Of lfo ∧ m.readIndex1Of lfo < DELAY_BUFFER_SIZE)
        ∧ (0 ≤ m.readIndex2Of lfo ∧ m.readIndex2Of lfo < DELAY_BUFFER_SIZE)
        ∧ (0 ≤ (m.Process lfo input).1.write_index_
           ∧ (m.Process lfo input).1.write_index_ < DELAY_BUFFER_SIZE)) := by
  have hmd : ∀ (m : ModulatedDelay) (lfo : ℚ),
      1 ≤ m.modulatedDelayOf lfo
      ∧ m.modulatedDelayOf lfo ≤ (DELAY_BUFFER_SIZE : ℚ) - 1 := by
    intro m lfo
    unfold ModulatedDelay.modulatedDelayOf
    refine ⟨le_max_left _ _, ?_⟩
    refine max_le (by norm_num [DELAY_BUFFER_SIZE]) ?_
    exact min_le_left _ _
  have hrp : ∀ (m : ModulatedDelay) (lfo : ℚ),
      0 ≤ m.write_index_ → m.write_index_ < DELAY_BUFFER_SIZE →
      0 ≤ m.readPosOf lfo ∧ m.readPosOf lfo < ((DELAY_BUFFER_SIZE : Int) : ℚ) := by
    intro m lfo hw0 hw1
    obtain ⟨hd1, hd2⟩ := hmd m lfo
    have hw0q : (0 : ℚ) ≤ (m.write_index_ : ℚ) := by exact_mod_cast hw0
    have hw1q : (m.write_index_ : ℚ) < ((DELAY_BUFFER_SIZE : Int) : ℚ) := by
      exact_mod_cast hw1
    have hbuf : ((DELAY_BUFFER_SIZE : Int) : ℚ) = (DELAY_BUFFER_SIZE : ℚ) := by
      norm_num [DELAY_BUFFER_SIZE]
    unfold ModulatedDelay.readPosOf
    rw [hbuf] at hw1q ⊢
    split_ifs with h <;> constructor <;>
      simp only [DELAY_BUFFER_SIZE] at hd2 hw1q h ⊢ <;> linarith
  refine ⟨?_, ?_, ?_, ?_, hmd, ?_⟩
  · intro m x
    refine ⟨le_max_left _ _, max_le (by norm_num) (min_le_left _ _), rfl⟩
  · intro m x
    exact ⟨le_max_left _ _, max_le (by norm_num) (min_le_left _ _)⟩
  · intro m x
    exact ⟨le_max_left _ _, max_le (by norm_num) (min_le_left _ _)⟩
  · intro m x
    exact ⟨le_max_left _ _, max_le (by norm_num) (min_le_left _ _)⟩
  · intro m lfo input hw0 hw1
    obtain ⟨hp0, hp1⟩ := hrp m lfo hw0 hw1
    have hi1 : m.readIndex1Of lfo = ⌊m.readPosOf lfo⌋ := by
      unfold ModulatedDelay.readIndex1Of cppIntCast
      rw [if_neg (not_lt.mpr hp0)]
    have hi10 : 0 ≤ m.readIndex1Of lfo := by
      rw [hi1]; exact Int.floor_nonneg.mpr hp0
    have hi11 : m.readIndex1Of lfo < DELAY_BUFFER_SIZE := by
      rw [hi1]; exact Int.floor_lt.mpr hp1
    refine ⟨⟨hp0, hp1⟩, ⟨hi10, hi11⟩, ?_, ?_⟩
    · unfold ModulatedDelay.readIndex2Of
      rw [Int.tmod_eq_emod (by omega) (by norm_num [DELAY_BUFFER_SIZE])]
      exact ⟨Int.emod_nonneg _ (by norm_num [DELAY_BUFFER_SIZE]),
             Int.emod_lt_of_pos _ (by norm_num [DELAY_BUFFER_SIZE])⟩
    · have hpw : (m.Process lfo input).1.write_index_
          = Int.tmod (m.write_index_ + 1) DELAY_BUFFER_SIZE := rfl
      rw [hpw, Int.tmod_eq_emod (by omega) (by norm_num [DELAY_BUFFER_SIZE])]
      exact ⟨Int.emod_nonneg _ (by norm_num [DELAY_BUFFER_SIZE]),
             Int.emod_lt_of_pos _ (by norm_num [DELAY_BUFFER_SIZE])⟩

/-- Witness for claim C8: the freshly initialized delay at 48 kHz reads
from index 43200 (one tenth of a second back), inside the buffer. -/
theorem claim_C8_witness :
    (0 : Int) ≤ (ModulatedDelay.Init 48000).write_index_
    ∧ (ModulatedDelay.Init 48000).write_index_ < DELAY_BUFFER_SIZE
    ∧ (0 ≤ (ModulatedDelay.Init 48000).readIndex1Of 0
       ∧ (ModulatedDelay.Init 48000).readIndex1Of 0 < DELAY_BUFFER_SIZE) := by
  refine ⟨by decide, by decide, ?_⟩
  exact ((claim_C8.2.2.2.2.2 (ModulatedDelay.Init 48000) 0 0 (by decide) (by decide)).2.1)

end DelayFx
